import Mathlib

/-!
# Verification of OSVR-Core plugin registration and eye-tracker interface

Shallow embedding of:
- `src/ogvr/PluginKit/PluginSpecificRegistrationContext.cpp` (plugin
  registration context: construction, reverse-order teardown, load-handle
  storage);
- the eye-tracker configure/report C API declared in
  `inc/osvr/PluginKit/EyeTrackerInterfaceC.h` (implementation not in the
  repository snapshot; modelled from the spec where noted);
- `vendor/comutils/ComVariant.h` (COM variant wrapper: copy/move semantics
  and array element accessors).
-/

/-! ## Plugin registration context -/

/-- Result reported by a slot's destruction action when it is invoked. -/
inductive ActionResult
  | ok
  | failed
  deriving DecidableEq, Repr

/-- Modelled from the spec: an Opaque Resource Slot (spec §3) — a type-erased
holder for one plugin-owned resource plus its destruction action, which "may
be absent, meaning no cleanup needed".  The repository snapshot lacks the
header declaring the element type of `m_dataList` (only
`PluginSpecificRegistrationContext.cpp` is present).  `rid` identifies the
resource; `action` is absent when the slot has no destruction action, and
otherwise records the result the action reports when invoked. -/
structure ResourceSlot where
  rid : Nat
  action : Option ActionResult
  deriving DecidableEq, Repr

/-- Modelled from the spec: `detail::resetPointerListReverseOrder` (called by
the context destructor at `PluginSpecificRegistrationContext.cpp:41`; its
defining header `ResetPointerList.h` is not in the repository snapshot).
Per spec §4.1, teardown "iterates the slot list from the most-recently-
registered to the least-recently-registered, invoking each slot's destruction
action; a missing destruction action is a no-op; any action that itself fails
is logged and teardown continues with the remaining slots".  The input list
is in registration order (earliest first); the recursion fires the suffix
(later registrations) before the head.  Returns the invoked resource ids in
invocation order, paired with the ids whose actions reported failure (the
diagnostics log), in report order. -/
def resetPointerListReverseOrder : List ResourceSlot → List Nat × List Nat
  | [] => ([], [])
  | s :: rest =>
      let p := resetPointerListReverseOrder rest
      match s.action with
      | none => p
      | some ActionResult.ok => (p.1 ++ [s.rid], p.2)
      | some ActionResult.failed => (p.1 ++ [s.rid], p.2 ++ [s.rid])

/-- From `PluginSpecificRegistrationContext.cpp`: the context owns a plugin
name `m_name`, an ordered data list `m_dataList` (appended to by
registration), and the plugin load handle `m_handle` (`libfunc::PluginHandle`,
modelled as an opaque `Nat`; `none` before `takePluginHandle` is called). -/
structure PluginSpecificRegistrationContext where
  m_name : String
  m_dataList : List ResourceSlot
  m_handle : Option Nat
  deriving DecidableEq, Repr

/-- Constructor from `PluginSpecificRegistrationContext.cpp:30-34`:
initializes `m_name` from the argument; the data list starts empty and no
load handle is held. -/
def mkContext (name : String) : PluginSpecificRegistrationContext :=
  { m_name := name, m_dataList := [], m_handle := none }

/-- Modelled from the spec: `register(resource, destructor)` (spec §4.1)
"inserts a new Opaque Resource Slot at the end of the ordered list"; the
member function performing the append is declared in the missing context
header, and the destructor's reverse-order reset is the evidence that
`m_dataList` is kept in registration order. -/
def registerSlot (c : PluginSpecificRegistrationContext) (s : ResourceSlot) :
    PluginSpecificRegistrationContext :=
  { c with m_dataList := c.m_dataList ++ [s] }

/-- Destructor from `PluginSpecificRegistrationContext.cpp:35-42`: deletes
the data in reverse order via `detail::resetPointerListReverseOrder`
on `m_dataList`.  Returns the (invocation order, diagnostics) pair of the
reset. -/
def destroyContext (c : PluginSpecificRegistrationContext) :
    List Nat × List Nat :=
  resetPointerListReverseOrder c.m_dataList

/-- From `PluginSpecificRegistrationContext.cpp:44-47`: the body is the
single assignment `m_handle = handle;`. -/
def takePluginHandle (c : PluginSpecificRegistrationContext) (handle : Nat) :
    PluginSpecificRegistrationContext :=
  { c with m_handle := some handle }

/-- The invocation order teardown is specified to produce: the slots in
reverse registration order, restricted to those that have a destruction
action.  Used to compare the embedded teardown against the spec's ordering
sentence. -/
def specReverseTeardownOrder (rs : List ResourceSlot) : List Nat :=
  rs.reverse.filterMap (fun s => s.action.map (fun _ => s.rid))

theorem foldl_registerSlot_dataList (c : PluginSpecificRegistrationContext)
    (rs : List ResourceSlot) :
    (rs.foldl registerSlot c).m_dataList = c.m_dataList ++ rs := by
  induction rs generalizing c with
  | nil => simp
  | cons s rest ih =>
      simp only [List.foldl_cons, ih, registerSlot, List.append_assoc,
        List.cons_append, List.nil_append]

theorem resetPointerList_fired_eq_spec (rs : List ResourceSlot) :
    (resetPointerListReverseOrder rs).1 = specReverseTeardownOrder rs := by
  induction rs with
  | nil => rfl
  | cons s rest ih =>
      simp only [resetPointerListReverseOrder, specReverseTeardownOrder,
        List.reverse_cons, List.filterMap_append] at *
      cases h : s.action with
      | none => simp [h, ih]
      | some r => cases r <;> simp [h, ih, Option.map]

theorem resetPointerList_diag_mem (rs : List ResourceSlot) (s : ResourceSlot)
    (hmem : s ∈ rs) (hf : s.action = some ActionResult.failed) :
    s.rid ∈ (resetPointerListReverseOrder rs).2 := by
  induction rs with
  | nil => cases hmem
  | cons t rest ih =>
      rcases List.mem_cons.mp hmem with heq | htail
      · subst heq
        simp [resetPointerListReverseOrder, hf]
      · have hr := ih htail
        simp only [resetPointerListReverseOrder]
        cases t.action with
        | none => exact hr
        | some r =>
            cases r
            · exact hr
            · exact List.mem_append.mpr (Or.inl hr)

/-- C1: registering slots `r1, …, rn` on a fresh context and then destroying
the context invokes the destruction actions in exactly the reverse order of
registration — `rn` first, `r1` last, each exactly once. -/
theorem teardown_reverse_order (name : String) (rs : List ResourceSlot)
    (hall : ∀ s ∈ rs, s.action.isSome = true) :
    (destroyContext (rs.foldl registerSlot (mkContext name))).1 =
      (rs.map ResourceSlot.rid).reverse := by
  have hlist : (rs.foldl registerSlot (mkContext name)).m_dataList = rs := by
    simpa [mkContext] using foldl_registerSlot_dataList (mkContext name) rs
  rw [destroyContext, hlist, resetPointerList_fired_eq_spec,
    specReverseTeardownOrder, ← List.map_reverse, ← List.filterMap_eq_map]
  apply List.filterMap_congr
  intro s hs
  have := hall s (List.mem_reverse.mp hs)
  cases h : s.action with
  | none => rw [h] at this; cases this
  | some r => simp [h]

/-- Witness for C1 at a concrete registration sequence of three slots. -/
theorem teardown_reverse_order_witness :
    (destroyContext
        ([⟨1, some ActionResult.ok⟩, ⟨2, some ActionResult.ok⟩,
          ⟨3, some ActionResult.ok⟩].foldl registerSlot (mkContext "p"))).1 =
      [3, 2, 1] :=
  teardown_reverse_order "p" _ (by decide)

/-- C2: if a mid-sequence slot's destruction action reports failure, teardown
does not abort: the invocation order over the whole sequence is still the
full reverse order, and the failing slot is reported to the diagnostics
log. -/
theorem teardown_failure_isolated (name : String)
    (pre post : List ResourceSlot) (s : ResourceSlot)
    (hf : s.action = some ActionResult.failed) :
    (destroyContext ((pre ++ s :: post).foldl registerSlot (mkContext name))).1 =
        specReverseTeardownOrder (pre ++ s :: post) ∧
      s.rid ∈
        (destroyContext
          ((pre ++ s :: post).foldl registerSlot (mkContext name))).2 := by
  have hlist :
      ((pre ++ s :: post).foldl registerSlot (mkContext name)).m_dataList =
        pre ++ s :: post := by
    simpa [mkContext] using
      foldl_registerSlot_dataList (mkContext name) (pre ++ s :: post)
  constructor
  · rw [destroyContext, hlist, resetPointerList_fired_eq_spec]
  · rw [destroyContext, hlist]
    exact resetPointerList_diag_mem _ s (by simp) hf

/-- Witness for C2: slot 2 fails mid-sequence; slots 3, 2, 1 all still fire
in reverse order and 2 is logged. -/
theorem teardown_failure_isolated_witness :
    (destroyContext
        ((([⟨1, some ActionResult.ok⟩] : List ResourceSlot) ++
            (⟨2, some ActionResult.failed⟩ : ResourceSlot) ::
            [⟨3, some ActionResult.ok⟩]).foldl registerSlot (mkContext "p"))).1 =
        specReverseTeardownOrder
          (([⟨1, some ActionResult.ok⟩] : List ResourceSlot) ++
            (⟨2, some ActionResult.failed⟩ : ResourceSlot) ::
            [⟨3, some ActionResult.ok⟩]) ∧
      (2 : Nat) ∈
        (destroyContext
          ((([⟨1, some ActionResult.ok⟩] : List ResourceSlot) ++
              (⟨2, some ActionResult.failed⟩ : ResourceSlot) ::
              [⟨3, some ActionResult.ok⟩]).foldl registerSlot
            (mkContext "p"))).2 :=
  teardown_failure_isolated "p" [⟨1, some ActionResult.ok⟩]
    [⟨3, some ActionResult.ok⟩] ⟨2, some ActionResult.failed⟩ rfl

/-- C8: `takePluginHandle h` stores `h` as the context's load handle and
changes nothing else — the plugin name and the registered slot list are
unchanged, and teardown of the updated context fires exactly what teardown
of the original would (no destruction action fires, teardown is not
triggered). -/
theorem takePluginHandle_frame (c : PluginSpecificRegistrationContext)
    (h : Nat) :
    (takePluginHandle c h).m_handle = some h ∧
      (takePluginHandle c h).m_name = c.m_name ∧
      (takePluginHandle c h).m_dataList = c.m_dataList ∧
      destroyContext (takePluginHandle c h) = destroyContext c := by
  refine ⟨rfl, rfl, rfl, ?_⟩
  rfl

/-! ## Eye-tracker interface: configure and report

`inc/osvr/PluginKit/EyeTrackerInterfaceC.h` only declares
`osvrDeviceEyeTrackerConfigure` and `osvrDeviceEyeTrackerReportData`; their
implementation is not in the repository snapshot, so the operations are
modelled from the spec (§4.2 Configure, §4.3 Report, §7 error taxonomy). -/

/-- Result codes, following the spec's error taxonomy (§7): success,
invalid argument, allocation failure, forwarding failure. -/
inductive OSVR_ReturnCode
  | success
  | invalidArgument
  | allocationFailure
  | forwardingFailure
  deriving DecidableEq, Repr

/-- Opaque device-init-options handle (supplied by the host-side
device-building collaborator); only its identity matters to this core. -/
structure OSVR_DeviceInitOptions where
  oid : Nat
  deriving DecidableEq, Repr

/-- The Device Interface Descriptor behind an
`OSVR_EyeTrackerDeviceInterface` handle: records the sensor count fixed at
configure time (spec §3). -/
structure OSVR_EyeTrackerDeviceInterfaceObject where
  sensorCount : Nat
  deriving DecidableEq, Repr

/-- Opaque device token (host-owned); `accepts` models whether the
device-token collaborator accepts a forwarded sample (its decision is
external to this core and is propagated unchanged, spec §4.3). -/
structure OSVR_DeviceToken where
  tid : Nat
  accepts : Bool
  deriving DecidableEq, Repr

/-- Eye gaze sample payload (`OSVR_EyeGazeDirection`); the core never
inspects it, so it is modelled as an opaque value. -/
structure OSVR_EyeGazeDirection where
  gaze : Nat
  deriving DecidableEq, Repr

/-- Timestamp value (`OSVR_TimeValue`). -/
structure OSVR_TimeValue where
  seconds : Int
  microseconds : Int
  deriving DecidableEq, Repr

/-- One sample handed to the device token's outbound path by Report. -/
structure ForwardedSample where
  token : Nat
  data : OSVR_EyeGazeDirection
  sensor : Nat
  timestamp : OSVR_TimeValue
  deriving DecidableEq, Repr

/-- Modelled from the spec: `osvrDeviceEyeTrackerConfigure` (declared at
`EyeTrackerInterfaceC.h:65-70`; implementation absent from the snapshot).
Spec §4.2: a null options handle or null output-slot pointer is an
invalid-argument failure; a sensor count outside the declared range 1-3 is an
invalid-argument failure; otherwise a descriptor recording the sensor count
is allocated, registered into the owning registration context's resource
list, and its handle written to the output slot.  On failure no descriptor
is registered and the output slot is left untouched.  `ifacePtrNull` models
whether the output-slot pointer is null; `ifaceSlot` is the slot's contents
before the call; `ctx` is the owning context's list of registered
descriptors.  Returns (code, context after, slot contents after). -/
def osvrDeviceEyeTrackerConfigure (opts : Option OSVR_DeviceInitOptions)
    (ifacePtrNull : Bool)
    (ifaceSlot : Option OSVR_EyeTrackerDeviceInterfaceObject)
    (numSensors : Nat)
    (ctx : List OSVR_EyeTrackerDeviceInterfaceObject) :
    OSVR_ReturnCode × List OSVR_EyeTrackerDeviceInterfaceObject ×
      Option OSVR_EyeTrackerDeviceInterfaceObject :=
  if opts.isNone || ifacePtrNull then
    (OSVR_ReturnCode.invalidArgument, ctx, ifaceSlot)
  else if numSensors < 1 || 3 < numSensors then
    (OSVR_ReturnCode.invalidArgument, ctx, ifaceSlot)
  else
    (OSVR_ReturnCode.success, ctx ++ [⟨numSensors⟩], some ⟨numSensors⟩)

/-- Modelled from the spec: `osvrDeviceEyeTrackerReportData` (declared at
`EyeTrackerInterfaceC.h:79-86`; implementation absent from the snapshot).
Spec §4.3: a null device token, interface handle, sample-data pointer, or
timestamp pointer (a pointer in this interface's declaration) is an
invalid-argument failure and no report is forwarded; a sensor index not
strictly less than the descriptor's configured sensor count is an
invalid-argument failure and no report is forwarded; otherwise the sample,
its sensor index, and its timestamp are forwarded unmodified to the device
token's outbound path and the collaborator's result is propagated unchanged.
Returns (code, list of samples forwarded by this call). -/
def osvrDeviceEyeTrackerReportData (dev : Option OSVR_DeviceToken)
    (iface : Option OSVR_EyeTrackerDeviceInterfaceObject)
    (eyeData : Option OSVR_EyeGazeDirection)
    (sensor : Nat)
    (timestamp : Option OSVR_TimeValue) :
    OSVR_ReturnCode × List ForwardedSample :=
  match dev, iface, eyeData, timestamp with
  | some d, some ifc, some ed, some ts =>
      if sensor < ifc.sensorCount then
        (if d.accepts then OSVR_ReturnCode.success
          else OSVR_ReturnCode.forwardingFailure,
          [⟨d.tid, ed, sensor, ts⟩])
      else (OSVR_ReturnCode.invalidArgument, [])
  | _, _, _, _ => (OSVR_ReturnCode.invalidArgument, [])

/-- C3: Configure with a sensor count outside 1-3 (in particular 0 or 4)
returns invalid-argument, registers no descriptor into the owning context,
and leaves the output slot untouched. -/
theorem configure_sensor_count_out_of_range
    (opts : Option OSVR_DeviceInitOptions) (ifacePtrNull : Bool)
    (ifaceSlot : Option OSVR_EyeTrackerDeviceInterfaceObject)
    (numSensors : Nat) (ctx : List OSVR_EyeTrackerDeviceInterfaceObject)
    (h : numSensors < 1 ∨ 3 < numSensors) :
    osvrDeviceEyeTrackerConfigure opts ifacePtrNull ifaceSlot numSensors ctx =
      (OSVR_ReturnCode.invalidArgument, ctx, ifaceSlot) := by
  unfold osvrDeviceEyeTrackerConfigure
  rcases opts with _ | o <;> cases ifacePtrNull <;> rcases h with h | h <;>
    simp [h]

/-- Witness for C3 at sensor counts 0 and 4. -/
theorem configure_sensor_count_out_of_range_witness :
    osvrDeviceEyeTrackerConfigure (some ⟨7⟩) false none 0 [] =
        (OSVR_ReturnCode.invalidArgument, [], none) ∧
      osvrDeviceEyeTrackerConfigure (some ⟨7⟩) false none 4 [] =
        (OSVR_ReturnCode.invalidArgument, [], none) :=
  ⟨configure_sensor_count_out_of_range (some ⟨7⟩) false none 0 []
      (Or.inl (by decide)),
    configure_sensor_count_out_of_range (some ⟨7⟩) false none 4 []
      (Or.inr (by decide))⟩

/-- C4: Configure with a null options handle or a null output-slot pointer
returns invalid-argument, registers no descriptor, and leaves the output
slot untouched. -/
theorem configure_null_args (opts : Option OSVR_DeviceInitOptions)
    (ifacePtrNull : Bool)
    (ifaceSlot : Option OSVR_EyeTrackerDeviceInterfaceObject)
    (numSensors : Nat) (ctx : List OSVR_EyeTrackerDeviceInterfaceObject)
    (h : opts = none ∨ ifacePtrNull = true) :
    osvrDeviceEyeTrackerConfigure opts ifacePtrNull ifaceSlot numSensors ctx =
      (OSVR_ReturnCode.invalidArgument, ctx, ifaceSlot) := by
  unfold osvrDeviceEyeTrackerConfigure
  rcases h with h | h <;> simp [h]

/-- Witness for C4 with a null options handle and with a null output slot. -/
theorem configure_null_args_witness :
    osvrDeviceEyeTrackerConfigure none false none 2 [] =
        (OSVR_ReturnCode.invalidArgument, [], none) ∧
      osvrDeviceEyeTrackerConfigure (some ⟨7⟩) true none 2 [] =
        (OSVR_ReturnCode.invalidArgument, [], none) :=
  ⟨configure_null_args none false none 2 [] (Or.inl rfl),
    configure_null_args (some ⟨7⟩) true none 2 [] (Or.inr rfl)⟩

/-- C5: a Report whose sensor index is not strictly less than the configured
sensor count returns invalid-argument and forwards no sample to the
device-token collaborator. -/
theorem report_sensor_index_out_of_range (dev : Option OSVR_DeviceToken)
    (ifc : OSVR_EyeTrackerDeviceInterfaceObject)
    (eyeData : Option OSVR_EyeGazeDirection) (sensor : Nat)
    (timestamp : Option OSVR_TimeValue)
    (h : ifc.sensorCount ≤ sensor) :
    osvrDeviceEyeTrackerReportData dev (some ifc) eyeData sensor timestamp =
      (OSVR_ReturnCode.invalidArgument, []) := by
  have hn : ¬ sensor < ifc.sensorCount := not_lt.mpr h
  cases dev <;> cases eyeData <;> cases timestamp <;>
    simp [osvrDeviceEyeTrackerReportData, hn]

/-- Witness for C5: sensor index 2 against a descriptor configured with
sensor count 2. -/
theorem report_sensor_index_out_of_range_witness :
    osvrDeviceEyeTrackerReportData (some ⟨1, true⟩) (some ⟨2⟩) (some ⟨5⟩) 2
        (some ⟨3, 0⟩) =
      (OSVR_ReturnCode.invalidArgument, []) :=
  report_sensor_index_out_of_range (some ⟨1, true⟩) ⟨2⟩ (some ⟨5⟩) 2
    (some ⟨3, 0⟩) (by decide)

/-- C6: a Report with any required pointer null (device token, interface
handle, sample data, or timestamp) returns invalid-argument and forwards no
sample to the device-token collaborator. -/
theorem report_null_pointer (dev : Option OSVR_DeviceToken)
    (iface : Option OSVR_EyeTrackerDeviceInterfaceObject)
    (eyeData : Option OSVR_EyeGazeDirection) (sensor : Nat)
    (timestamp : Option OSVR_TimeValue)
    (h : dev = none ∨ iface = none ∨ eyeData = none ∨ timestamp = none) :
    osvrDeviceEyeTrackerReportData dev iface eyeData sensor timestamp =
      (OSVR_ReturnCode.invalidArgument, []) := by
  cases dev <;> cases iface <;> cases eyeData <;> cases timestamp <;>
    simp_all [osvrDeviceEyeTrackerReportData]

/-- Witness for C6: a null timestamp pointer (the other arguments valid). -/
theorem report_null_pointer_witness :
    osvrDeviceEyeTrackerReportData (some ⟨1, true⟩) (some ⟨2⟩) (some ⟨5⟩) 0
        none =
      (OSVR_ReturnCode.invalidArgument, []) :=
  report_null_pointer (some ⟨1, true⟩) (some ⟨2⟩) (some ⟨5⟩) 0 none
    (Or.inr (Or.inr (Or.inr rfl)))

/-- C7: Configure with sensor count 2 succeeds and yields a handle; Report on
sensors 0 and 1 through that handle (with an accepting device-token
collaborator) both succeed, and each forwards exactly one sample carrying the
given data, sensor index, and timestamp unmodified. -/
theorem configure_report_round_trip (o : OSVR_DeviceInitOptions)
    (dev : OSVR_DeviceToken) (d1 d2 : OSVR_EyeGazeDirection)
    (t1 t2 : OSVR_TimeValue) (hacc : dev.accepts = true) :
    (osvrDeviceEyeTrackerConfigure (some o) false none 2 []).1 =
        OSVR_ReturnCode.success ∧
      (osvrDeviceEyeTrackerConfigure (some o) false none 2 []).2.2 =
        some ⟨2⟩ ∧
      osvrDeviceEyeTrackerReportData (some dev)
          (osvrDeviceEyeTrackerConfigure (some o) false none 2 []).2.2
          (some d1) 0 (some t1) =
        (OSVR_ReturnCode.success, [⟨dev.tid, d1, 0, t1⟩]) ∧
      osvrDeviceEyeTrackerReportData (some dev)
          (osvrDeviceEyeTrackerConfigure (some o) false none 2 []).2.2
          (some d2) 1 (some t2) =
        (OSVR_ReturnCode.success, [⟨dev.tid, d2, 1, t2⟩]) := by
  refine ⟨rfl, rfl, ?_, ?_⟩ <;>
    simp [osvrDeviceEyeTrackerConfigure, osvrDeviceEyeTrackerReportData, hacc]

/-- Witness for C7 at concrete option, token, samples, and timestamps. -/
theorem configure_report_round_trip_witness :
    (osvrDeviceEyeTrackerConfigure (some ⟨7⟩) false none 2 []).1 =
        OSVR_ReturnCode.success ∧
      (osvrDeviceEyeTrackerConfigure (some ⟨7⟩) false none 2 []).2.2 =
        some ⟨2⟩ ∧
      osvrDeviceEyeTrackerReportData (some ⟨1, true⟩)
          (osvrDeviceEyeTrackerConfigure (some ⟨7⟩) false none 2 []).2.2
          (some ⟨5⟩) 0 (some ⟨3, 0⟩) =
        (OSVR_ReturnCode.success, [⟨1, ⟨5⟩, 0, ⟨3, 0⟩⟩]) ∧
      osvrDeviceEyeTrackerReportData (some ⟨1, true⟩)
          (osvrDeviceEyeTrackerConfigure (some ⟨7⟩) false none 2 []).2.2
          (some ⟨6⟩) 1 (some ⟨4, 0⟩) =
        (OSVR_ReturnCode.success, [⟨1, ⟨6⟩, 1, ⟨4, 0⟩⟩]) :=
  configure_report_round_trip ⟨7⟩ ⟨1, true⟩ ⟨5⟩ ⟨6⟩ ⟨3, 0⟩ ⟨4, 0⟩ rfl

/-! ## COM variant wrapper (`vendor/comutils/ComVariant.h`)

The variant is modelled at the instantiation the header fully implements:
`Dest = std::wstring` (traits `VariantTypeTraits<std::wstring>` and
`VariantArrayTypeTraits<std::wstring>`).  A wide string is a list of
character codes; a `VARIANT` is empty, a BSTR scalar, or a BSTR array
(`vt == VT_BSTR | VT_ARRAY`).  The wrapper's `data_` unique pointer is an
`Option`: `none` is the invalid state (nullptr-constructed or moved-from). -/

/-- `std::wstring`, as a list of character codes. -/
abbrev WStr := List Nat

/-- A raw `VARIANT` value at the modelled instantiation: `VT_EMPTY`, a BSTR
scalar, or a 1-dimensional SAFEARRAY of BSTRs. -/
inductive RawVariant
  | vtEmpty
  | vtBstr (s : WStr)
  | vtBstrArray (arr : List WStr)
  deriving DecidableEq, Repr

/-- Exceptions thrown by the header's accessors and wrapper operations. -/
inductive ComExn
  | invalidArgument
  | runtimeError
  | logicError
  deriving DecidableEq, Repr

/-- `containsArray<std::wstring>` on a raw variant (`ComVariant.h:478-481`):
the variant's `vt` equals `VT_BSTR | VT_ARRAY`. -/
def containsArray : RawVariant → Bool
  | RawVariant.vtBstrArray _ => true
  | _ => false

/-- The `V_ARRAY` access on a raw variant holding an array. -/
def varArray : RawVariant → List WStr
  | RawVariant.vtBstrArray arr => arr
  | _ => []

/-- `VariantArrayTypeTraits<std::wstring>::get` (`ComVariant.h:95-107`):
`SafeArrayGetElement` at index `i`; on success with a non-null BSTR the
string is copied out, otherwise the default-constructed empty string is
returned. -/
def variantArrayTraits_get (arr : List WStr) (i : Nat) : WStr :=
  match arr.get? i with
  | some bs => bs
  | none => []

/-- Raw indexed `getArray<std::wstring>` (`ComVariant.h:526-536`): throws
`std::invalid_argument` unless the variant contains a BSTR array, then
returns the element the traits fetch at index `i`. -/
def getArray_raw_indexed (v : RawVariant) (i : Nat) : Except ComExn WStr :=
  if containsArray v then
    Except.ok (variantArrayTraits_get (varArray v) i)
  else Except.error ComExn.invalidArgument

/-- Raw range `getArray<std::wstring>` (`ComVariant.h:551-561`): throws
`std::invalid_argument` unless the variant contains a BSTR array, then
returns a `VariantSafeArrayRange` over the SAFEARRAY — modelled as the
array's element list in bounds order (our model arrays are 1-dimensional
with valid bounds, so the range constructor's dimension and bound checks
succeed). -/
def getArray_raw_range (v : RawVariant) : Except ComExn (List WStr) :=
  if containsArray v then Except.ok (varArray v)
  else Except.error ComExn.invalidArgument

/-- The wrapper's `data_` member: `none` models the invalid state
(nullptr-constructed or moved-from); `some r` models an allocated holder
whose `VARIANT` has value `r`. -/
abbrev VariantWrapperData := Option RawVariant

/-- `containsArray<std::wstring>` on a wrapped variant (`ComVariant.h:484-487`):
`v && containsArray<Dest>(v.get())`. -/
def containsArray_wrapped (v : VariantWrapperData) : Bool :=
  match v with
  | some r => containsArray r
  | none => false

/-- Wrapped indexed `getArray<std::wstring>` exactly as the source writes it
(`ComVariant.h:539-547`): after the `containsArray` check, the body returns
`getArray<Dest>(v.get())` — the RAW RANGE overload — so the index parameter
`i` is never used, and the value produced is the range over the whole array,
not the element at `i` (the function's declared return type `Dest` does not
match this expression; the embedding gives the returned expression's actual
value). -/
def getArray_wrapped_indexed (v : VariantWrapperData) (i : Nat) :
    Except ComExn (List WStr) :=
  if containsArray_wrapped v then
    match v with
    | some r => getArray_raw_range r
    | none => Except.error ComExn.invalidArgument
  else Except.error ComExn.invalidArgument

/-- C9 counterexample: on a wrapped variant containing the BSTR array
`[[0], [1]]`, the raw indexed accessor distinguishes indices 0 and 1, but the
wrapped indexed accessor as written produces the same value at both indices —
it drops the index and returns the range overload's result — so it cannot
agree with the raw indexed accessor at every in-bounds index. -/
theorem getArray_wrapped_indexed_ignores_index :
    getArray_raw_indexed (RawVariant.vtBstrArray [[0], [1]]) 0 ≠
        getArray_raw_indexed (RawVariant.vtBstrArray [[0], [1]]) 1 ∧
      getArray_wrapped_indexed (some (RawVariant.vtBstrArray [[0], [1]])) 0 =
        getArray_wrapped_indexed (some (RawVariant.vtBstrArray [[0], [1]])) 1 := by
  constructor
  · intro h
    simp [getArray_raw_indexed, variantArrayTraits_get, varArray,
      containsArray] at h
  · rfl

/-- `VariantWrapper` copy-assignment (`ComVariant.h:389-426`): copying from
an invalid (moved-from / nullptr-constructed) source throws
`std::logic_error` before touching the destination; otherwise `ensureInit`
allocates the destination's holder if needed and `VariantCopy` replaces its
contents with a copy of the source's variant (in this model of plain values
there are no locked arrays, invalid vartypes, or allocation failures, so
`VariantCopy` returns `S_OK`).  Returns the destination's `data_` after the
call and the exception thrown, if any. -/
def variantCopyAssign (dst src : VariantWrapperData) :
    VariantWrapperData × Option ComExn :=
  match src with
  | none => (dst, some ComExn.logicError)
  | some r => (some r, none)

/-- `VariantWrapper` copy constructor (`ComVariant.h:364-372`): delegates to
the default constructor, throws `std::logic_error` if the source is invalid,
otherwise copy-assigns from the source. -/
def variantCopyCtor (src : VariantWrapperData) :
    Except ComExn VariantWrapperData :=
  match src with
  | none => Except.error ComExn.logicError
  | some r => Except.ok ((variantCopyAssign (some RawVariant.vtEmpty)
      (some r)).1)

/-- `VariantWrapper` move constructor (`ComVariant.h:376-377`): steals the
source's `data_`; the source is left as if constructed with `nullptr`.
Returns (new object's `data_`, source's `data_` after). -/
def variantMoveCtor (src : VariantWrapperData) :
    VariantWrapperData × VariantWrapperData :=
  (src, none)

/-- `VariantWrapper` move-assignment (`ComVariant.h:381-385`): `dealloc()`
frees the destination's holder, then the source's `data_` is moved in; the
source is left as if constructed with `nullptr`.  Returns (destination's
`data_` after, source's `data_` after). -/
def variantMoveAssign (dst src : VariantWrapperData) :
    VariantWrapperData × VariantWrapperData :=
  (src, none)

/-- C10: copy-construction and copy-assignment from an invalid (moved-from or
nullptr-constructed) wrapper throw `std::logic_error` and leave the
destination unchanged, while move-construction and move-assignment from any
wrapper succeed (throw nothing), transfer the source's variant, and leave the
source in the invalid nullptr-constructed state. -/
theorem variantWrapper_copy_move_semantics (dst src : VariantWrapperData) :
    variantCopyCtor none = Except.error ComExn.logicError ∧
      variantCopyAssign dst none = (dst, some ComExn.logicError) ∧
      variantMoveCtor src = (src, none) ∧
      variantMoveAssign dst src = (src, none) :=
  ⟨rfl, rfl, rfl, rfl⟩
